import Mathlib

/-
Verification of the LittleLemon restaurant backend (Django app `restaurant`).

Shallow embedding of the data model (src/restaurant/models.py), the URL
routing (src/restaurant/urls.py) and the CRUD endpoint contract.  The view
and serializer modules are not part of the sources available here, so the
endpoint operations are modelled from the specification (each such
definition carries a doc comment saying so); the field names, validator
bounds and routes are taken directly from the source files.
-/

namespace LittleLemon

/-- MenuItem record, from the `Menu` model in src/restaurant/models.py:
`title` is a CharField with max_length 255, `price` a DecimalField with
max_digits 10 and decimal_places 2 (modelled as an integer number of
hundredths), `inventory` an IntegerField with MinValueValidator 0 and
MaxValueValidator 99999. -/
structure MenuItem where
  title : String
  price : Int
  inventory : Int
deriving Repr, DecidableEq

/-- Booking record, from the `Booking` model in src/restaurant/models.py:
`name` is a CharField with max_length 255, `no_of_guests` an IntegerField
with MinValueValidator 1 and MaxValueValidator 6, and the date-time field
is the model attribute `BookingDate` (a DateTimeField, modelled as an
integer timestamp).  Note the attribute name is `BookingDate`, not
`booking_date`. -/
structure Booking where
  name : String
  no_of_guests : Int
  BookingDate : Int
deriving Repr, DecidableEq

/-- Validation of a required CharField with max_length 255: the serializer
rejects blank input and input longer than 255 characters. -/
def validText (t : String) : Bool :=
  decide (1 ≤ t.length ∧ t.length ≤ 255)

/-- Validation of the DecimalField with max_digits 10: at most ten decimal
digits in total, i.e. the value in hundredths has absolute value at most
9999999999. -/
def validPrice (p : Int) : Bool :=
  decide (p.natAbs ≤ 9999999999)

/-- Validation of Menu.inventory from src/restaurant/models.py:
MinValueValidator 0 and MaxValueValidator 99999 (inclusive range). -/
def validInventory (n : Int) : Bool :=
  decide (0 ≤ n ∧ n ≤ 99999)

/-- Validation of Booking.no_of_guests from src/restaurant/models.py:
MinValueValidator 1 and MaxValueValidator 6 (inclusive range). -/
def validGuests (n : Int) : Bool :=
  decide (1 ≤ n ∧ n ≤ 6)

/-- Field-level validation errors for a MenuItem payload: the list of the
names of the fields whose values violate the declared constraints. -/
def menuFieldErrors (p : MenuItem) : List String :=
  (if validText p.title then [] else ["title"]) ++
  (if validPrice p.price then [] else ["price"]) ++
  (if validInventory p.inventory then [] else ["inventory"])

/-- Field-level validation errors for a Booking payload. -/
def bookingFieldErrors (b : Booking) : List String :=
  (if validText b.name then [] else ["name"]) ++
  (if validGuests b.no_of_guests then [] else ["no_of_guests"])

/-- Backing store for one entity kind: a system-assigned next id and the
rows as id-record pairs, in storage order. -/
structure Store (α : Type) where
  nextId : Nat
  rows : List (Nat × α)
deriving Repr, DecidableEq

/-- Empty store, as created by a fresh migration. -/
def Store.empty {α : Type} : Store α := ⟨1, []⟩

/-- Look up the record with the given id. -/
def Store.find {α : Type} (s : Store α) (i : Nat) : Option α :=
  (s.rows.find? (fun r => r.1 == i)).map Prod.snd

/-- Persist a new record under the next system-assigned id. -/
def Store.insert {α : Type} (s : Store α) (v : α) : Store α :=
  ⟨s.nextId + 1, s.rows ++ [(s.nextId, v)]⟩

/-- Overwrite the record stored under id `i` with `v`. -/
def Store.replace {α : Type} (s : Store α) (i : Nat) (v : α) : Store α :=
  ⟨s.nextId, s.rows.map (fun r => if r.1 == i then (i, v) else r)⟩

/-- Remove the record stored under id `i`. -/
def Store.erase {α : Type} (s : Store α) (i : Nat) : Store α :=
  ⟨s.nextId, s.rows.filter (fun r => r.1 != i)⟩

/-- Store invariant: every row id is below the next system-assigned id
(true of every store reachable from empty by the operations here). -/
def Store.wf {α : Type} (s : Store α) : Bool :=
  s.rows.all (fun r => decide (r.1 < s.nextId))

/-- JSON scalar values appearing in request and response bodies. -/
inductive JVal where
  | str : String → JVal
  | num : Int → JVal
deriving Repr, DecidableEq

/-- Look up a key in a JSON object represented as a key-value list. -/
def lookupKey (kvs : List (String × JVal)) (k : String) : Option JVal :=
  (kvs.find? (fun kv => kv.1 == k)).map Prod.snd

/-- Modelled from the spec: serializers.py is not among the sources, so the
Booking serializer is the default ModelSerializer of the framework, which
keys the JSON object by the model attribute names; those names are taken
from the `Booking` model in src/restaurant/models.py (`name`,
`no_of_guests`, `BookingDate`) plus the system-assigned `id`. -/
def serializeBooking (i : Nat) (b : Booking) : List (String × JVal) :=
  [("id", JVal.num (Int.ofNat i)),
   ("name", JVal.str b.name),
   ("no_of_guests", JVal.num b.no_of_guests),
   ("BookingDate", JVal.num b.BookingDate)]

/-- Modelled from the spec: deserialization of a Booking request body by
the default ModelSerializer, which reads each required field under its
model attribute name from src/restaurant/models.py and fails when one is
absent. -/
def parseBookingBody (kvs : List (String × JVal)) : Option Booking :=
  match lookupKey kvs "name", lookupKey kvs "no_of_guests",
      lookupKey kvs "BookingDate" with
  | some (JVal.str n), some (JVal.num g), some (JVal.num d) =>
      some ⟨n, g, d⟩
  | _, _, _ => none

/-- Routes of the menu endpoints, from src/restaurant/urls.py: the
collection route matches the path `menu/` and the item route matches
`menu/<int:pk>/`, carrying the converted primary key. -/
inductive MenuRoute where
  | collection : MenuRoute
  | item : Nat → MenuRoute
deriving Repr, DecidableEq

/-- Decimal-integer test on a path segment: nonempty and made of decimal
digits only, exactly the strings accepted by the regex `[0-9]+`. -/
def isIntSegment (s : String) : Bool :=
  !s.data.isEmpty && s.data.all Char.isDigit

/-- Django int path converter: its regex is `[0-9]+`, so it accepts exactly
the nonempty strings of decimal digits and converts them to the integer
they denote. -/
def intConverter (s : String) : Option Nat :=
  if isIntSegment s then
    some (s.data.foldl (fun n c => 10 * n + (c.toNat - 48)) 0)
  else
    none

/-- URL resolution for the menu endpoints, from src/restaurant/urls.py: a
request path, split into its slash-separated segments, is matched against
`menu/` and `menu/<int:pk>/`; any other path reaches no menu handler. -/
def matchMenuPath : List String → Option MenuRoute
  | ["menu"] => some MenuRoute.collection
  | ["menu", s] => (intConverter s).map MenuRoute.item
  | _ => none

/-- Credential presented with a request: none at all, an invalid or
insufficient one, or a valid authenticated identity. -/
inductive Cred where
  | anon : Cred
  | badToken : Cred
  | authed : Cred
deriving Repr, DecidableEq

/-- Modelled from the spec: the authorization gate on the Booking resource
(IsAuthenticated permission on the BookingViewSet, asserted by
src/restaurant/tests.py) rejects a missing credential with 401 and an
invalid or insufficient one with 403, before any entity lookup. -/
def authError : Cred → Option Nat
  | Cred.anon => some 401
  | Cred.badToken => some 403
  | Cred.authed => none

/-- Result of a write operation (create, update, partial update): the HTTP
status, the resulting store, the returned record with its id if any, and
the field names carried by a validation error body. -/
structure WriteResult (α : Type) where
  status : Nat
  store : Store α
  body : Option (Nat × α)
  errors : List String
deriving Repr, DecidableEq

/-- Modelled from the spec: ListMenuItems returns 200 with the JSON array
of all MenuItem records, requires no credential, and succeeds on the empty
store. -/
def listMenuItems (s : Store MenuItem) : Nat × List (Nat × MenuItem) :=
  (200, s.rows)

/-- Modelled from the spec: CreateMenuItem validates title, price and
inventory against the model constraints of src/restaurant/models.py; on
success it persists a new record and returns it with 201, on validation
failure it returns 400 with field-level error detail and persists
nothing; no credential is required. -/
def createMenuItem (s : Store MenuItem) (p : MenuItem) : WriteResult MenuItem :=
  if menuFieldErrors p = [] then
    ⟨201, s.insert p, some (s.nextId, p), []⟩
  else
    ⟨400, s, none, menuFieldErrors p⟩

/-- Modelled from the spec: RetrieveMenuItem returns the record matching
the id with 200, or 404 if the id is absent. -/
def retrieveMenuItem (s : Store MenuItem) (i : Nat) : Nat × Option MenuItem :=
  match s.find i with
  | some m => (200, some m)
  | none => (404, none)

/-- Modelled from the spec: UpdateMenuItem (full replace) requires all
fields present and valid; 200 with the updated record on success, 400 on
validation failure, 404 if the id is absent. -/
def updateMenuItem (s : Store MenuItem) (i : Nat) (p : MenuItem) :
    WriteResult MenuItem :=
  match s.find i with
  | none => ⟨404, s, none, []⟩
  | some _ =>
      if menuFieldErrors p = [] then
        ⟨200, s.replace i p, some (i, p), []⟩
      else
        ⟨400, s, none, menuFieldErrors p⟩

/-- Partial-update payload for a MenuItem: each field optionally supplied. -/
structure MenuPatch where
  title : Option String
  price : Option Int
  inventory : Option Int
deriving Repr, DecidableEq

/-- Field-level validation errors of a partial payload: only the supplied
fields are validated. -/
def menuPatchErrors (q : MenuPatch) : List String :=
  (match q.title with
   | none => []
   | some t => if validText t then [] else ["title"]) ++
  (match q.price with
   | none => []
   | some p => if validPrice p then [] else ["price"]) ++
  (match q.inventory with
   | none => []
   | some n => if validInventory n then [] else ["inventory"])

/-- Apply a partial payload to an existing record: supplied fields replace
the stored values, omitted fields keep them. -/
def applyMenuPatch (m : MenuItem) (q : MenuPatch) : MenuItem :=
  ⟨q.title.getD m.title, q.price.getD m.price, q.inventory.getD m.inventory⟩

/-- Modelled from the spec: PartialUpdateMenuItem validates only the
supplied fields; 200 with the updated record, 400 on an invalid supplied
field, 404 if the id is absent. -/
def patchMenuItem (s : Store MenuItem) (i : Nat) (q : MenuPatch) :
    WriteResult MenuItem :=
  match s.find i with
  | none => ⟨404, s, none, []⟩
  | some m =>
      if menuPatchErrors q = [] then
        ⟨200, s.replace i (applyMenuPatch m q), some (i, applyMenuPatch m q), []⟩
      else
        ⟨400, s, none, menuPatchErrors q⟩

/-- Modelled from the spec: DeleteMenuItem removes the record and returns
204 with an empty body, or 404 if the id is absent. -/
def deleteMenuItem (s : Store MenuItem) (i : Nat) : Nat × Store MenuItem :=
  match s.find i with
  | none => (404, s)
  | some _ => (204, s.erase i)

/-- Partial-update payload for a Booking. -/
structure BookingPatch where
  name : Option String
  no_of_guests : Option Int
  BookingDate : Option Int
deriving Repr, DecidableEq

/-- Field-level validation errors of a partial Booking payload. -/
def bookingPatchErrors (q : BookingPatch) : List String :=
  (match q.name with
   | none => []
   | some t => if validText t then [] else ["name"]) ++
  (match q.no_of_guests with
   | none => []
   | some n => if validGuests n then [] else ["no_of_guests"])

/-- Apply a partial Booking payload to an existing record. -/
def applyBookingPatch (b : Booking) (q : BookingPatch) : Booking :=
  ⟨q.name.getD b.name, q.no_of_guests.getD b.no_of_guests,
   q.BookingDate.getD b.BookingDate⟩

/-- Modelled from the spec: the Booking list operation; the authorization
gate runs first and on rejection no rows are returned and nothing is
looked up. -/
def listBookings (c : Cred) (s : Store Booking) : Nat × List (Nat × Booking) :=
  match authError c with
  | some e => (e, [])
  | none => (200, s.rows)

/-- Modelled from the spec: the Booking create operation; the gate runs
first, then the payload is validated against the model constraints of
src/restaurant/models.py and a new record is persisted with 201. -/
def createBooking (c : Cred) (s : Store Booking) (b : Booking) :
    WriteResult Booking :=
  match authError c with
  | some e => ⟨e, s, none, []⟩
  | none =>
      if bookingFieldErrors b = [] then
        ⟨201, s.insert b, some (s.nextId, b), []⟩
      else
        ⟨400, s, none, bookingFieldErrors b⟩

/-- Modelled from the spec: the Booking retrieve operation, gated. -/
def retrieveBooking (c : Cred) (s : Store Booking) (i : Nat) :
    Nat × Option Booking :=
  match authError c with
  | some e => (e, none)
  | none =>
      match s.find i with
      | some b => (200, some b)
      | none => (404, none)

/-- Modelled from the spec: the Booking full-update operation, gated. -/
def updateBooking (c : Cred) (s : Store Booking) (i : Nat) (b : Booking) :
    WriteResult Booking :=
  match authError c with
  | some e => ⟨e, s, none, []⟩
  | none =>
      match s.find i with
      | none => ⟨404, s, none, []⟩
      | some _ =>
          if bookingFieldErrors b = [] then
            ⟨200, s.replace i b, some (i, b), []⟩
          else
            ⟨400, s, none, bookingFieldErrors b⟩

/-- Modelled from the spec: the Booking partial-update operation, gated. -/
def patchBooking (c : Cred) (s : Store Booking) (i : Nat) (q : BookingPatch) :
    WriteResult Booking :=
  match authError c with
  | some e => ⟨e, s, none, []⟩
  | none =>
      match s.find i with
      | none => ⟨404, s, none, []⟩
      | some b =>
          if bookingPatchErrors q = [] then
            ⟨200, s.replace i (applyBookingPatch b q),
             some (i, applyBookingPatch b q), []⟩
          else
            ⟨400, s, none, bookingPatchErrors q⟩

/-- Modelled from the spec: the Booking delete operation, gated. -/
def deleteBooking (c : Cred) (s : Store Booking) (i : Nat) :
    Nat × Store Booking :=
  match authError c with
  | some e => (e, s)
  | none =>
      match s.find i with
      | none => (404, s)
      | some _ => (204, s.erase i)

/-- One row of the identity store consumed by the auth token issuer: a
username, a password and the opaque token issued for that account. -/
structure IdentityRecord where
  username : String
  password : String
  token : String
deriving Repr, DecidableEq

/-- Modelled from the spec: ObtainToken authenticates the credentials
against the identity store and returns the account token with 200 on a
match, and an error status (400) with no token otherwise. -/
def obtainToken (db : List IdentityRecord) (u p : String) :
    Nat × Option String :=
  match db.find? (fun r => r.username == u && r.password == p) with
  | some r => (200, some r.token)
  | none => (400, none)

/-- Sample MenuItem fixture from the test suite setup. -/
def pizza : MenuItem := ⟨"Pizza", 999, 10⟩

/-- Sample MenuItem fixture from the test suite create payload. -/
def burger : MenuItem := ⟨"Burger", 550, 15⟩

/-- MenuItem payload whose inventory exceeds the allowed maximum. -/
def overstocked : MenuItem := ⟨"Soup", 300, 100000⟩

/-- One-row menu store holding the pizza fixture under id 1. -/
def menuStore1 : Store MenuItem := ⟨2, [(1, pizza)]⟩

/-- Sample Booking fixture from the test suite setup. -/
def alice : Booking := ⟨"Alice", 2, 0⟩

/-- Booking payload whose number of guests exceeds the allowed maximum. -/
def crowd : Booking := ⟨"Bob", 7, 0⟩

/-- One-row booking store holding the alice fixture under id 1. -/
def bookingStore1 : Store Booking := ⟨2, [(1, alice)]⟩

/-- Partial Booking payload supplying no field at all. -/
def noBookingPatch : BookingPatch := ⟨none, none, none⟩

/-- Partial MenuItem payload supplying only a new inventory of 99. -/
def inventoryPatch : MenuPatch := ⟨none, none, some 99⟩

/-- One-account identity store for the token issuer. -/
def identityDb : List IdentityRecord :=
  [⟨"tokenuser", "tokenpass", "a1b2c3"⟩]

theorem find?_append_fresh {α : Type} (l : List (Nat × α)) (n : Nat) (v : α)
    (h : ∀ r ∈ l, r.1 < n) :
    (l ++ [(n, v)]).find? (fun r => r.1 == n) = some (n, v) := by
  induction l with
  | nil => simp [List.find?]
  | cons a l ih =>
      have ha : a.1 < n := h a (List.mem_cons_self a l)
      have hne : (a.1 == n) = false := by
        simp only [beq_eq_false_iff_ne, ne_eq]
        exact Nat.ne_of_lt ha
      simp only [List.cons_append, List.find?, hne]
      exact ih (fun r hr => h r (List.mem_cons_of_mem a hr))

theorem find_insert_self {α : Type} (s : Store α) (v : α) (hwf : s.wf = true) :
    (s.insert v).find s.nextId = some v := by
  have h : ∀ r ∈ s.rows, r.1 < s.nextId := by
    intro r hr
    have := List.all_eq_true.mp hwf r hr
    exact of_decide_eq_true this
  simp [Store.insert, Store.find, find?_append_fresh s.rows s.nextId v h]

theorem find?_replace_self {α : Type} (l : List (Nat × α)) (i : Nat) (v : α)
    (h : (l.find? (fun r => r.1 == i)).isSome = true) :
    (l.map (fun r => if r.1 == i then (i, v) else r)).find?
      (fun r => r.1 == i) = some (i, v) := by
  induction l with
  | nil => simp [List.find?] at h
  | cons a l ih =>
      rw [List.map_cons]
      by_cases hai : (a.1 == i) = true
      · rw [if_pos hai]
        exact List.find?_cons_of_pos _ (by simp)
      · have hai' : (a.1 == i) = false := by simpa using hai
        simp only [List.find?_cons, hai'] at h
        rw [if_neg hai]
        simp only [List.find?_cons, hai']
        exact ih h

theorem find?_replace_ne {α : Type} (l : List (Nat × α)) (i j : Nat) (v : α)
    (hij : j ≠ i) :
    (l.map (fun r => if r.1 == i then (i, v) else r)).find?
      (fun r => r.1 == j) = l.find? (fun r => r.1 == j) := by
  induction l with
  | nil => simp
  | cons a l ih =>
      rw [List.map_cons]
      by_cases hai : (a.1 == i) = true
      · have ha : a.1 = i := by simpa using hai
        have hinej : ((i : Nat) == j) = false := by
          simp only [beq_eq_false_iff_ne, ne_eq]
          exact fun hh => hij hh.symm
        have haj : (a.1 == j) = false := by
          rw [ha]; exact hinej
        rw [if_pos hai]
        simp only [List.find?_cons, hinej, haj]
        exact ih
      · rw [if_neg hai]
        simp only [List.find?_cons]
        by_cases haj : (a.1 == j) = true
        · simp only [haj]
        · have haj' : (a.1 == j) = false := by simpa using haj
          simp only [haj']
          exact ih

theorem find_replace_self {α : Type} (s : Store α) (i : Nat) (m v : α)
    (h : s.find i = some m) :
    (s.replace i v).find i = some v := by
  have hs : (s.rows.find? (fun r => r.1 == i)).isSome = true := by
    unfold Store.find at h
    cases hfind : s.rows.find? (fun r => r.1 == i) with
    | none => rw [hfind] at h; simp at h
    | some r => simp [hfind]
  show ((s.rows.map (fun r => if r.1 == i then (i, v) else r)).find?
      (fun r => r.1 == i)).map Prod.snd = some v
  rw [find?_replace_self s.rows i v hs]
  rfl

theorem find_replace_ne {α : Type} (s : Store α) (i j : Nat) (v : α)
    (hij : j ≠ i) :
    (s.replace i v).find j = s.find j := by
  show ((s.rows.map (fun r => if r.1 == i then (i, v) else r)).find?
      (fun r => r.1 == j)).map Prod.snd = _
  rw [find?_replace_ne s.rows i j v hij]
  rfl

theorem find?_filter_ne {α : Type} (l : List (Nat × α)) (i : Nat) :
    (l.filter (fun r => r.1 != i)).find? (fun r => r.1 == i) = none := by
  induction l with
  | nil => simp
  | cons a l ih =>
      rw [List.filter_cons]
      by_cases hai : (a.1 == i) = true
      · have : (a.1 != i) = false := by simp [bne, hai]
        rw [if_neg (by simp [this])]
        exact ih
      · have hai' : (a.1 == i) = false := by simpa using hai
        have hbne : (a.1 != i) = true := by simpa [bne] using hai
        rw [if_pos (by simp [hbne])]
        simp only [List.find?_cons, hai']
        exact ih

theorem find_erase_self {α : Type} (s : Store α) (i : Nat) :
    (s.erase i).find i = none := by
  show ((s.rows.filter (fun r => r.1 != i)).find?
      (fun r => r.1 == i)).map Prod.snd = none
  rw [find?_filter_ne s.rows i]
  rfl

/-- C1 counterexample: at a concrete Booking, the serialized response body
carries no key named booking_date (the date-time value sits under the
model attribute name BookingDate), and a request body keyed booking_date
is not accepted. -/
theorem booking_datetime_key_cex :
    lookupKey (serializeBooking 1 alice) "booking_date" = none ∧
    lookupKey (serializeBooking 1 alice) "BookingDate" = some (JVal.num 0) ∧
    parseBookingBody
      [("name", JVal.str "Alice"), ("no_of_guests", JVal.num 2),
       ("booking_date", JVal.num 0)] = none :=
  ⟨rfl, rfl, rfl⟩

/-- C1 (amended): for every Booking response and request, the JSON body is
keyed by the model attribute names of src/restaurant/models.py; in
particular the date-time field of a Booking is serialized and accepted
under the key BookingDate, not booking_date. -/
theorem booking_datetime_key_spec (i : Nat) (b : Booking) :
    lookupKey (serializeBooking i b) "BookingDate" =
      some (JVal.num b.BookingDate) ∧
    lookupKey (serializeBooking i b) "booking_date" = none ∧
    parseBookingBody
      [("name", JVal.str b.name), ("no_of_guests", JVal.num b.no_of_guests),
       ("BookingDate", JVal.num b.BookingDate)] = some b ∧
    parseBookingBody
      [("name", JVal.str b.name), ("no_of_guests", JVal.num b.no_of_guests),
       ("booking_date", JVal.num b.BookingDate)] = none :=
  ⟨rfl, rfl, rfl, rfl⟩

/-- C2: every Booking operation invoked without a valid authenticated
credential is rejected with 401 (no credential) or 403 (credential present
but insufficient); the rejection is decided by the gate alone before any
lookup, no record is returned, and the Booking store is left unmodified. -/
theorem booking_auth_gate (c : Cred) (s : Store Booking) (b : Booking)
    (i : Nat) (q : BookingPatch) (hc : c ≠ Cred.authed) :
    ∃ e, authError c = some e ∧ (e = 401 ∨ e = 403) ∧
      listBookings c s = (e, []) ∧
      createBooking c s b = ⟨e, s, none, []⟩ ∧
      retrieveBooking c s i = (e, none) ∧
      updateBooking c s i b = ⟨e, s, none, []⟩ ∧
      patchBooking c s i q = ⟨e, s, none, []⟩ ∧
      deleteBooking c s i = (e, s) := by
  cases c with
  | anon => exact ⟨401, rfl, Or.inl rfl, rfl, rfl, rfl, rfl, rfl, rfl⟩
  | badToken => exact ⟨403, rfl, Or.inr rfl, rfl, rfl, rfl, rfl, rfl, rfl⟩
  | authed => exact absurd rfl hc

/-- Witness for booking_auth_gate at an anonymous request against the
one-row booking store. -/
theorem booking_auth_gate_witness :
    ∃ e, authError Cred.anon = some e ∧ (e = 401 ∨ e = 403) ∧
      listBookings Cred.anon bookingStore1 = (e, []) ∧
      createBooking Cred.anon bookingStore1 crowd = ⟨e, bookingStore1, none, []⟩ ∧
      retrieveBooking Cred.anon bookingStore1 1 = (e, none) ∧
      updateBooking Cred.anon bookingStore1 1 crowd = ⟨e, bookingStore1, none, []⟩ ∧
      patchBooking Cred.anon bookingStore1 1 noBookingPatch =
        ⟨e, bookingStore1, none, []⟩ ∧
      deleteBooking Cred.anon bookingStore1 1 = (e, bookingStore1) :=
  booking_auth_gate Cred.anon bookingStore1 crowd 1 noBookingPatch (by decide)

/-- C3: a CreateMenuItem payload whose inventory lies outside [0, 99999]
is rejected with 400, field-level error detail naming inventory, and no
persisted record; a payload with inventory in range and the other fields
valid is persisted as a new record and returned with 201. -/
theorem menu_create_inventory_bounds (s : Store MenuItem) (p : MenuItem) :
    (¬ (0 ≤ p.inventory ∧ p.inventory ≤ 99999) →
      (createMenuItem s p).status = 400 ∧
      (createMenuItem s p).store = s ∧
      (createMenuItem s p).body = none ∧
      "inventory" ∈ (createMenuItem s p).errors) ∧
    ((0 ≤ p.inventory ∧ p.inventory ≤ 99999) →
      validText p.title = true → validPrice p.price = true →
      (createMenuItem s p).status = 201 ∧
      (createMenuItem s p).store.rows = s.rows ++ [(s.nextId, p)] ∧
      (createMenuItem s p).body = some (s.nextId, p)) := by
  constructor
  · intro h
    have hinv : validInventory p.inventory = false := by
      unfold validInventory
      exact decide_eq_false h
    have hmem : "inventory" ∈ menuFieldErrors p := by
      simp [menuFieldErrors, hinv]
    have hne : ¬ menuFieldErrors p = [] := by
      intro h0
      rw [h0] at hmem
      exact List.not_mem_nil _ hmem
    simp [createMenuItem, hne, hmem]
  · intro h ht hp
    have hinv : validInventory p.inventory = true := by
      unfold validInventory
      exact decide_eq_true h
    have hz : menuFieldErrors p = [] := by
      simp [menuFieldErrors, hinv, ht, hp]
    simp [createMenuItem, hz, Store.insert]

/-- Witness for menu_create_inventory_bounds: the overstocked payload is
rejected and the burger payload is persisted. -/
theorem menu_create_inventory_bounds_witness :
    ((createMenuItem menuStore1 overstocked).status = 400 ∧
      (createMenuItem menuStore1 overstocked).store = menuStore1 ∧
      (createMenuItem menuStore1 overstocked).body = none ∧
      "inventory" ∈ (createMenuItem menuStore1 overstocked).errors) ∧
    ((createMenuItem menuStore1 burger).status = 201 ∧
      (createMenuItem menuStore1 burger).store.rows =
        menuStore1.rows ++ [(menuStore1.nextId, burger)] ∧
      (createMenuItem menuStore1 burger).body =
        some (menuStore1.nextId, burger)) :=
  ⟨(menu_create_inventory_bounds menuStore1 overstocked).1 (by decide),
   (menu_create_inventory_bounds menuStore1 burger).2
     (by decide) (by decide) (by decide)⟩

/-- C4: a Booking create whose payload has no_of_guests outside [1, 6],
submitted by an authenticated caller, returns a 400 validation failure
naming no_of_guests and creates no record, leaving the store unchanged. -/
theorem booking_create_guest_bounds (s : Store Booking) (b : Booking)
    (hg : ¬ (1 ≤ b.no_of_guests ∧ b.no_of_guests ≤ 6)) :
    (createBooking Cred.authed s b).status = 400 ∧
    (createBooking Cred.authed s b).store = s ∧
    (createBooking Cred.authed s b).body = none ∧
    "no_of_guests" ∈ (createBooking Cred.authed s b).errors := by
  have hng : validGuests b.no_of_guests = false := by
    unfold validGuests
    exact decide_eq_false hg
  have hmem : "no_of_guests" ∈ bookingFieldErrors b := by
    simp [bookingFieldErrors, hng]
  have hne : ¬ bookingFieldErrors b = [] := by
    intro h0
    rw [h0] at hmem
    exact List.not_mem_nil _ hmem
  simp [createBooking, authError, hne, hmem]

/-- Witness for booking_create_guest_bounds at a seven-guest payload. -/
theorem booking_create_guest_bounds_witness :
    (createBooking Cred.authed bookingStore1 crowd).status = 400 ∧
    (createBooking Cred.authed bookingStore1 crowd).store = bookingStore1 ∧
    (createBooking Cred.authed bookingStore1 crowd).body = none ∧
    "no_of_guests" ∈ (createBooking Cred.authed bookingStore1 crowd).errors :=
  booking_create_guest_bounds bookingStore1 crowd (by decide)

/-- C5: for every well-formed store and valid MenuItem payload (title of
at most 255 characters, price within the digit bounds, inventory in
[0, 99999]), CreateMenuItem succeeds with 201 returning the new id and
payload, and retrieving that id afterwards returns 200 with exactly the
created field values. -/
theorem menu_create_retrieve_roundtrip (s : Store MenuItem) (p : MenuItem)
    (hwf : s.wf = true)
    (ht : validText p.title = true) (hp : validPrice p.price = true)
    (hinv : 0 ≤ p.inventory ∧ p.inventory ≤ 99999) :
    (createMenuItem s p).status = 201 ∧
    (createMenuItem s p).body = some (s.nextId, p) ∧
    retrieveMenuItem (createMenuItem s p).store s.nextId = (200, some p) := by
  have hi : validInventory p.inventory = true := by
    unfold validInventory
    exact decide_eq_true hinv
  have hz : menuFieldErrors p = [] := by
    simp [menuFieldErrors, ht, hp, hi]
  have hfind : (s.insert p).find s.nextId = some p := find_insert_self s p hwf
  refine ⟨by simp [createMenuItem, hz], by simp [createMenuItem, hz], ?_⟩
  simp [createMenuItem, hz, retrieveMenuItem, hfind]

/-- Witness for menu_create_retrieve_roundtrip: the burger payload round
trips through the one-row store. -/
theorem menu_create_retrieve_roundtrip_witness :
    (createMenuItem menuStore1 burger).status = 201 ∧
    (createMenuItem menuStore1 burger).body =
      some (menuStore1.nextId, burger) ∧
    retrieveMenuItem (createMenuItem menuStore1 burger).store
      menuStore1.nextId = (200, some burger) :=
  menu_create_retrieve_roundtrip menuStore1 burger
    (by decide) (by decide) (by decide) (by decide)

/-- C6: partially updating an existing MenuItem with a valid partial
payload returns 200 and the updated record; each supplied field takes its
new value, every omitted field keeps its prior value, and every other
record of the store is untouched. -/
theorem menu_patch_frame (s : Store MenuItem) (i : Nat) (m : MenuItem)
    (q : MenuPatch) (hm : s.find i = some m)
    (hq : menuPatchErrors q = []) :
    (patchMenuItem s i q).status = 200 ∧
    (patchMenuItem s i q).body = some (i, applyMenuPatch m q) ∧
    (patchMenuItem s i q).store.find i = some (applyMenuPatch m q) ∧
    (∀ j, j ≠ i → (patchMenuItem s i q).store.find j = s.find j) ∧
    (q.title = none → (applyMenuPatch m q).title = m.title) ∧
    (q.price = none → (applyMenuPatch m q).price = m.price) ∧
    (q.inventory = none → (applyMenuPatch m q).inventory = m.inventory) := by
  have hrepl := find_replace_self s i m (applyMenuPatch m q) hm
  refine ⟨?_, ?_, ?_, ?_, ?_, ?_, ?_⟩
  · simp [patchMenuItem, hm, hq]
  · simp [patchMenuItem, hm, hq]
  · simp [patchMenuItem, hm, hq, hrepl]
  · intro j hj
    simp [patchMenuItem, hm, hq, find_replace_ne s i j (applyMenuPatch m q) hj]
  · intro h0
    simp [applyMenuPatch, h0]
  · intro h0
    simp [applyMenuPatch, h0]
  · intro h0
    simp [applyMenuPatch, h0]

/-- Witness for menu_patch_frame: patching only the inventory of the
stored pizza to 99 returns 200, stores the new inventory, keeps the title
Pizza, and leaves the record under any other id untouched. -/
theorem menu_patch_frame_witness :
    (patchMenuItem menuStore1 1 inventoryPatch).status = 200 ∧
    (patchMenuItem menuStore1 1 inventoryPatch).body =
      some (1, applyMenuPatch pizza inventoryPatch) ∧
    (patchMenuItem menuStore1 1 inventoryPatch).store.find 1 =
      some (applyMenuPatch pizza inventoryPatch) ∧
    (patchMenuItem menuStore1 1 inventoryPatch).store.find 5 =
      menuStore1.find 5 ∧
    (applyMenuPatch pizza inventoryPatch).title = pizza.title := by
  obtain ⟨h1, h2, h3, h4, h5, _, _⟩ :=
    menu_patch_frame menuStore1 1 pizza inventoryPatch (by decide) (by decide)
  exact ⟨h1, h2, h3, h4 5 (by decide), h5 rfl⟩

/-- C7: deleting an existing MenuItem returns 204 and removes the record,
so a subsequent retrieve of the same id returns 404; deleting an absent id
returns 404 and changes nothing. -/
theorem menu_delete_spec (s : Store MenuItem) (i : Nat) :
    (∀ m, s.find i = some m →
      (deleteMenuItem s i).1 = 204 ∧
      (deleteMenuItem s i).2.find i = none ∧
      retrieveMenuItem (deleteMenuItem s i).2 i = (404, none)) ∧
    (s.find i = none → deleteMenuItem s i = (404, s)) := by
  constructor
  · intro m hm
    refine ⟨?_, ?_, ?_⟩
    · simp [deleteMenuItem, hm]
    · simp [deleteMenuItem, hm, find_erase_self]
    · simp [deleteMenuItem, hm, retrieveMenuItem, find_erase_self]
  · intro h
    simp [deleteMenuItem, h]

/-- Witness for menu_delete_spec: deleting the stored pizza returns 204
and the id afterwards resolves to 404, while deleting the absent id 7
returns 404 with the store unchanged. -/
theorem menu_delete_spec_witness :
    ((deleteMenuItem menuStore1 1).1 = 204 ∧
      (deleteMenuItem menuStore1 1).2.find 1 = none ∧
      retrieveMenuItem (deleteMenuItem menuStore1 1).2 1 = (404, none)) ∧
    deleteMenuItem menuStore1 7 = (404, menuStore1) :=
  ⟨(menu_delete_spec menuStore1 1).1 pizza (by decide),
   (menu_delete_spec menuStore1 7).2 (by decide)⟩

/-- C8: ListMenuItems takes no credential and returns 200 together with
every record of the store in storage order; on the empty store it returns
200 with the empty array rather than an error. -/
theorem menu_list_spec (s : Store MenuItem) :
    (listMenuItems s).1 = 200 ∧ (listMenuItems s).2 = s.rows ∧
    listMenuItems Store.empty = (200, ([] : List (Nat × MenuItem))) :=
  ⟨rfl, rfl, rfl⟩

/-- C9: ObtainToken returns 200 together with a token exactly when the
submitted username and password match a record of the identity store, and
returns the 400 error status with no token otherwise. -/
theorem obtain_token_spec (db : List IdentityRecord) (u p : String) :
    (((obtainToken db u p).1 = 200 ∧ (obtainToken db u p).2.isSome = true) ↔
      ∃ r ∈ db, r.username = u ∧ r.password = p) ∧
    ((¬ ∃ r ∈ db, r.username = u ∧ r.password = p) →
      obtainToken db u p = (400, none)) := by
  cases hfind : db.find? (fun r => r.username == u && r.password == p) with
  | none =>
      have hno : ∀ r ∈ db, ¬ (r.username = u ∧ r.password = p) := by
        intro r hr hcontra
        have := List.find?_eq_none.mp hfind r hr
        simp [hcontra.1, hcontra.2] at this
      have hres : obtainToken db u p = (400, none) := by
        simp [obtainToken, hfind]
      constructor
      · rw [hres]
        constructor
        · rintro ⟨h200, _⟩
          simp at h200
        · rintro ⟨r, hr, hru, hrp⟩
          exact absurd ⟨hru, hrp⟩ (hno r hr)
      · intro _
        exact hres
  | some r =>
      have hpr := List.find?_some hfind
      simp only [Bool.and_eq_true, beq_iff_eq] at hpr
      have hmem : r ∈ db := List.mem_of_find?_eq_some hfind
      have hru : r.username = u := hpr.1
      have hrp : r.password = p := hpr.2
      have hres : obtainToken db u p = (200, some r.token) := by
        simp [obtainToken, hfind]
      constructor
      · constructor
        · intro _
          exact ⟨r, hmem, hru, hrp⟩
        · intro _
          rw [hres]
          exact ⟨rfl, rfl⟩
      · intro hno
        exact absurd ⟨r, hmem, hru, hrp⟩ hno

/-- Witness for obtain_token_spec: the registered account obtains a token
with 200, and a wrong password obtains 400 with no token. -/
theorem obtain_token_spec_witness :
    ((obtainToken identityDb "tokenuser" "tokenpass").1 = 200 ∧
      (obtainToken identityDb "tokenuser" "tokenpass").2.isSome = true) ∧
    obtainToken identityDb "tokenuser" "wrong" = (400, none) :=
  ⟨(obtain_token_spec identityDb "tokenuser" "tokenpass").1.mpr
     ⟨⟨"tokenuser", "tokenpass", "a1b2c3"⟩, by decide, rfl, rfl⟩,
   (obtain_token_spec identityDb "tokenuser" "wrong").2 (by decide)⟩

/-- C10: the menu item route matches exactly when the id segment is a
nonempty string of decimal digits, so every invocation of the single-item
menu handler receives an integer primary key; for any other id segment no
menu handler is reached. -/
theorem menu_detail_route_int (seg : String) :
    (isIntSegment seg = false →
      matchMenuPath ["menu", seg] = none) ∧
    (∀ r, matchMenuPath ["menu", seg] = some r →
      ∃ pk, r = MenuRoute.item pk ∧ intConverter seg = some pk) := by
  constructor
  · intro h
    simp [matchMenuPath, intConverter, h]
  · intro r hr
    simp only [matchMenuPath] at hr
    cases hconv : intConverter seg with
    | none =>
        rw [hconv] at hr
        simp at hr
    | some pk =>
        rw [hconv] at hr
        simp at hr
        exact ⟨pk, hr.symm, rfl⟩

/-- Witness for menu_detail_route_int: a non-numeric id segment reaches no
handler and the segment 17 resolves to the item route with key 17. -/
theorem menu_detail_route_int_witness :
    matchMenuPath ["menu", "abc"] = none ∧
    ∃ pk, MenuRoute.item 17 = MenuRoute.item pk ∧
      intConverter "17" = some pk :=
  ⟨(menu_detail_route_int "abc").1 (by decide),
   (menu_detail_route_int "17").2 (MenuRoute.item 17) (by decide)⟩

end LittleLemon
